import Mathlib

/-!
# Verification of the BookMySeva real-time chat subsystem

A shallow embedding of the chat session/messaging layer of the
BookMySeva backend: the socket event handlers in `src/index.js`
(join_session, send_message, end_chat, admin_reply, delete_message,
delete_session), the data model in `src/models` (chatSessionSchema,
chatMessageSchema, botIntentSchema), the standalone intent-recognition
service in `src/services/intentRecognition.js`, and the admin REST
surface for sessions in `src/routes/storage.js`.

Strings are modelled as lists of characters (`Str`) so that the
JavaScript `String.prototype.includes` substring test and
`toLowerCase` are directly expressible.  Object ids are natural
numbers drawn from a per-store counter.  JavaScript truthiness of the
optional identity strings (`if (userId)`) is modelled explicitly: an
absent value and the empty string are both falsy.

Each socket handler body is wrapped in `try { ... } catch (e) {
console.error(...) }` in the source.  To reason about store failures
we parametrise every handler by a failure schedule `failAt : Option
Nat`: the store operations executed by one handler invocation are
numbered from 0 in execution order, and when the schedule names the
index of an operation that is actually reached, that operation throws;
control then transfers to the catch clause, which only logs.  Events
emitted before the failing operation have already been delivered and
are kept in the result.  `failAt = none` is the normal, failure-free
run used by the functional-correctness claims.
-/

/-- JavaScript strings, modelled as lists of characters. -/
abbrev Str := List Char

/-- `String.prototype.toLowerCase`, character-wise. -/
def toLowerStr (s : Str) : Str := s.map Char.toLower

/-- Does `hay` start with `needle`? (helper for the substring test). -/
def startsWith : Str → Str → Bool
  | [], _ => true
  | _ :: _, [] => false
  | a :: as, b :: bs => a = b && startsWith as bs

/-- `hay.includes(needle)`: contiguous-substring test, true for the
empty needle, as in JavaScript. -/
def isSubstrOf (needle : Str) : Str → Bool
  | [] => needle.isEmpty
  | c :: rest => startsWith needle (c :: rest) || isSubstrOf needle rest

/-- Whitespace characters recognised by `String.prototype.trim` (the
common ones; enough for the whitespace-only-message check). -/
def isWsp (c : Char) : Bool := c = ' ' || c = '\t' || c = '\n' || c = '\r'

/-- `String.prototype.trim`. -/
def trimStr (s : Str) : Str := ((s.dropWhile isWsp).reverse.dropWhile isWsp).reverse

/-- JavaScript truthiness of an optional string: `undefined`, `null`
and the empty string are falsy. -/
def truthy : Option Str → Bool
  | some s => !s.isEmpty
  | none => false

/-- `a || b` on an optional string versus a string default:
the JavaScript or-else chain used for room names and user names. -/
def orTruthy (a : Option Str) (b : Str) : Str :=
  match a with
  | some s => if s.isEmpty then b else s
  | none => b

/-- First-some choice, used for the shallow merge of guest details
(a field supplied by the new object wins). -/
def oor {α : Type} : Option α → Option α → Option α
  | some a, _ => some a
  | none, b => b

/-- `_id.toString()`: decimal rendering of a storage id for room names. -/
def natToStr (n : Nat) : Str := Nat.toDigits 10 n

/-! ## Data model (src/models) -/

/-- Guest contact details sub-document of `chatSessionSchema`. -/
structure GuestDetails where
  name : Option Str := none
  phone : Option Str := none
  email : Option Str := none
deriving DecidableEq, Repr

/-- Shallow merge `{ ...old, ...new }`: fields present on the new
object win. -/
def mergeGD (old new : GuestDetails) : GuestDetails :=
  { name := oor new.name old.name
    phone := oor new.phone old.phone
    email := oor new.email old.email }

/-- `chatSessionSchema` (src/models, chat session model).  The schema
declares exactly these persisted fields; `context` is a Mixed blob
never inspected by any handler, modelled as an opaque association
list.  Note the schema has no `endedAt` or `endedByUser` field. -/
structure ChatSession where
  _id : Nat
  userId : Option Str := none
  guestDetails : GuestDetails := {}
  guestId : Option Str := none
  socketId : Str
  isActive : Bool := true
  lastActivity : Nat := 0
  context : List (Str × Str) := []
  escalated : Bool := false
  escalatedAt : Option Nat := none
  whatsappNumber : Option Str := none
  userAgent : Option Str := none
  ipAddress : Option Str := none
  isDeleted : Bool := false
deriving DecidableEq, Repr

/-- Message sender role (`sender` enum of `chatMessageSchema`). -/
inductive Sender where
  | user
  | bot
  | admin
deriving DecidableEq, Repr

/-- `chatMessageSchema` (src/models, chat message model).  `metadata`
is a Mixed blob on which the handlers only ever store a `quickReplies`
array, modelled as that array.  `sessionId` stores the owning
session's storage id. -/
structure ChatMessage where
  _id : Nat
  sessionId : Nat
  sender : Sender
  message : Str
  isRead : Bool := false
  isDeleted : Bool := false
  attachments : List Str := []
  intent : Option Str := none
  quickReplies : List Str := []
  createdAt : Nat := 0
deriving DecidableEq, Repr

/-- `botIntentSchema` (src/models/BotIntent.js). -/
structure BotIntent where
  _id : Nat
  intent : Str
  keywords : List Str
  response : Str
  quickReplies : List Str := []
  isActive : Bool := true
  priority : Int := 0
  matchCount : Nat := 0
  lastMatched : Option Nat := none
deriving DecidableEq, Repr

/-- The document store: sessions, messages and intents collections,
plus a fresh-id counter standing in for ObjectId generation. -/
structure DB where
  sessions : List ChatSession := []
  messages : List ChatMessage := []
  intents : List BotIntent := []
  nextId : Nat := 0
deriving DecidableEq, Repr

/-! ## Store operations -/

/-- The three shapes the dynamically built session lookup query can
take (`{userId}`, `{guestId}` or `{socketId}`). -/
inductive IdQuery where
  | byUser (u : Str)
  | byGuest (g : Str)
  | bySocket (sid : Str)
deriving DecidableEq, Repr

/-- Does a session document match the lookup query? -/
def matchesQuery (q : IdQuery) (s : ChatSession) : Bool :=
  match q with
  | .byUser u => s.userId = some u
  | .byGuest g => s.guestId = some g
  | .bySocket sid => s.socketId = sid

/-- `ChatSession.findOne(query)`: first matching document. -/
def findSession (db : DB) (q : IdQuery) : Option ChatSession :=
  db.sessions.find? (matchesQuery q)

/-- `session.save()` on an existing document: replace the stored
document with the same `_id`. -/
def saveSession (db : DB) (s : ChatSession) : DB :=
  { db with sessions := db.sessions.map (fun t => if t._id = s._id then s else t) }

/-- `new ChatSession(...).save()`: append a fresh document and bump
the id counter (the fresh document carries `_id = db.nextId`). -/
def insertSession (db : DB) (s : ChatSession) : DB :=
  { db with sessions := db.sessions ++ [s], nextId := db.nextId + 1 }

/-- `new ChatMessage(...).save()`. -/
def insertMessage (db : DB) (m : ChatMessage) : DB :=
  { db with messages := db.messages ++ [m], nextId := db.nextId + 1 }

/-- `ChatMessage.findByIdAndUpdate` carrier: replace by `_id`. -/
def saveMessage (db : DB) (m : ChatMessage) : DB :=
  { db with messages := db.messages.map (fun t => if t._id = m._id then m else t) }

/-- `BotIntent.findByIdAndUpdate(id, { $inc: { matchCount: 1 }, lastMatched })`. -/
def bumpIntentStats (db : DB) (iid : Nat) (t : Nat) : DB :=
  { db with intents := db.intents.map (fun i =>
      if i._id = iid then { i with matchCount := i.matchCount + 1, lastMatched := some t } else i) }

/-! ## Sorting helpers (for `.sort({...})` store queries) -/

/-- Insert into a list ascending by a natural-number key. -/
def insertByKey {α : Type} (key : α → Nat) (x : α) : List α → List α
  | [] => [x]
  | y :: ys => if key x ≤ key y then x :: y :: ys else y :: insertByKey key x ys

/-- Sort ascending by a natural-number key (`.sort({ createdAt: 1 })`). -/
def sortByKey {α : Type} (key : α → Nat) : List α → List α
  | [] => []
  | x :: xs => insertByKey key x (sortByKey key xs)

/-- Insert into a list descending by an integer key. -/
def insertDescBy {α : Type} (key : α → Int) (x : α) : List α → List α
  | [] => [x]
  | y :: ys => if key y ≤ key x then x :: y :: ys else y :: insertDescBy key x ys

/-- Sort descending by an integer key (`.sort({ priority: -1 })`,
`.sort({ lastActivity: -1 })`). -/
def sortDescBy {α : Type} (key : α → Int) : List α → List α
  | [] => []
  | x :: xs => insertDescBy key x (sortDescBy key xs)

/-! ## Socket-layer state and events -/

/-- Per-connection mutable state: the socket id, the identity context
cached by `join_session` (`socket.guestId`, `socket.userId`,
`socket.guestDetails`), the rooms joined, and the handshake metadata
captured on lazy session creation. -/
structure Sock where
  id : Str
  guestId : Option Str := none
  userId : Option Str := none
  guestDetails : Option GuestDetails := none
  rooms : List Str := []
  ip : Str := []
  userAgent : Option Str := none
deriving DecidableEq, Repr

/-- `socket.join(room)` (idempotent). -/
def joinRoom (sock : Sock) (r : Str) : Sock :=
  if r ∈ sock.rooms then sock else { sock with rooms := sock.rooms ++ [r] }

/-- Outgoing protocol events.  The protocol has no error event: no
constructor of this type carries an error, mirroring the source,
which never emits one. -/
inductive OutEvent where
  | sessionJoined (sessionId : Option Nat) (messages : List ChatMessage)
  | message (m : ChatMessage)
  | adminNewMessage (sessionId : Nat) (m : ChatMessage) (session : ChatSession)
  | chatEnded (success : Bool)
  | userEndedChat (sessionId : Nat) (gd : GuestDetails)
  | messageDeleted (messageId : Nat) (sessionId : Nat)
  | sessionDeleted (sessionId : Str) (userName : Str)
  | adminMessageSent (m : ChatMessage)
deriving DecidableEq, Repr

/-- Emission target: `socket.emit` (the initiating connection),
`io.emit` (broadcast to every connected client), or `io.to(room)`.
A room named by a socket id contains exactly that connection, so
`io.to(socket.id)` reaches the originating connection only. -/
inductive Target where
  | toSelf
  | broadcast
  | toRoom (r : Str)
deriving DecidableEq, Repr

/-- A targeted emission. -/
structure TEvent where
  target : Target
  ev : OutEvent
deriving DecidableEq, Repr

/-- The delayed bot reply scheduled by `send_message` via
`setTimeout(..., 1000)`: everything the timer callback closes over. -/
structure DelayedReply where
  delayMs : Nat
  sessionId : Nat
  text : Str
  intentLabel : Option Str
  quickReplies : List Str
  /-- `some` iff an intent matched; its stats are bumped in the callback. -/
  intentId : Option Nat
  /-- `io.to(socket.id)`: the room named by the originating socket id. -/
  targetRoom : Str
deriving DecidableEq, Repr

/-- Result of one handler invocation: the store and socket afterwards,
the events emitted (in order), the delayed bot replies scheduled, and
whether the catch clause ran (`console.error` logged an error). -/
structure HResult where
  db : DB
  sock : Sock
  events : List TEvent
  delayed : List DelayedReply
  logged : Bool
deriving DecidableEq, Repr

/-- The catch clause: keep state already persisted and events already
delivered, log, emit nothing further, schedule nothing. -/
def caught (db : DB) (sock : Sock) (events : List TEvent) : HResult :=
  ⟨db, sock, events, [], true⟩

/-! ## Session resolution (src/index.js lines 616-620 and 703-706;
both handlers build the query with the same three-way conditional). -/

/-- The `else if (guestId) ... else` tail of the query construction. -/
def guestOrSocket (guestId : Option Str) (sockId : Str) : IdQuery :=
  match guestId with
  | some g => if g.isEmpty then .bySocket sockId else .byGuest g
  | none => .bySocket sockId

/-- `if (userId) query = {userId}; else if (guestId) query = {guestId};
else query = {socketId: socket.id}` — identical in the join_session
and send_message handlers. -/
def buildQuery (userId guestId : Option Str) (sockId : Str) : IdQuery :=
  match userId with
  | some u => if u.isEmpty then guestOrSocket guestId sockId else .byUser u
  | none => guestOrSocket guestId sockId

/-! ## Intent matching -/

/-- Does some keyword of the intent occur, lowercased, as a substring
of the lowercased message?  (`intent.keywords.some(k =>
lowerMsg.includes(k.toLowerCase()))`, src/index.js line 761). -/
def keywordHit (msg : Str) (i : BotIntent) : Bool :=
  i.keywords.any (fun k => isSubstrOf (toLowerStr k) (toLowerStr msg))

/-- The inline substring matcher of the send_message path
(src/index.js lines 757-765): first intent, in the given order, with a
keyword hit. -/
def findMatchedIntent (msg : Str) (intents : List BotIntent) : Option BotIntent :=
  intents.find? (keywordHit msg)

/-- `BotIntent.find({ isActive: true }).sort({ priority: -1 })`
(src/index.js line 756). -/
def activeIntentsSorted (db : DB) : List BotIntent :=
  sortDescBy (fun i => i.priority) (db.intents.filter (fun i => i.isActive))

/-- The fixed fallback reply body (src/index.js line 799). -/
def fallbackText : Str :=
  "I\x27m not sure I understand. Would you like to speak to a human agent?".data

/-- The bot reply scheduled for a matched intent (src/index.js lines
767-790). -/
def mkBotReply (sid : Nat) (it : BotIntent) (sockId : Str) : DelayedReply :=
  ⟨1000, sid, it.response, some it.intent, it.quickReplies, some it._id, sockId⟩

/-- The fallback reply scheduled when no intent matches (src/index.js
lines 791-808). -/
def fallbackReply (sid : Nat) (sockId : Str) : DelayedReply :=
  ⟨1000, sid, fallbackText, none, ["Contact Support".data], none, sockId⟩

/-- Run the timer callback of a delayed reply at wall-clock `now2`:
persist the bot message, bump intent stats when an intent matched,
emit the message to the originating connection's room. -/
def runDelayedReply (now2 : Nat) (db : DB) (r : DelayedReply) : DB × List TEvent :=
  let botMsg : ChatMessage :=
    { _id := db.nextId, sessionId := r.sessionId, sender := .bot, message := r.text,
      isRead := true, intent := r.intentLabel, quickReplies := r.quickReplies,
      createdAt := now2 }
  let db1 := insertMessage db botMsg
  let db2 := match r.intentId with
    | some iid => bumpIntentStats db1 iid now2
    | none => db1
  (db2, [⟨.toRoom r.targetRoom, .message botMsg⟩])

/-! ## Socket event handlers (src/index.js lines 593-911) -/

/-- Payload of the `join_session` event (object form; the legacy
scalar form carries the userId alone and is not modelled). -/
structure JoinData where
  userId : Option Str := none
  guestDetails : Option GuestDetails := none
  guestId : Option Str := none
deriving DecidableEq, Repr

/-- Payload of the `send_message` event. -/
structure SendData where
  message : Str
  userId : Option Str := none
  guestId : Option Str := none
deriving DecidableEq, Repr

/-- The `join_session` handler (src/index.js lines 597-661).
Store operations: 0 `ChatSession.findOne`; then in the found branch
1 `session.save()`, 2 `ChatMessage.find`. -/
def joinSession (failAt : Option Nat) (db : DB) (sock0 : Sock) (d : JoinData) : HResult :=
  -- store context on the socket
  let sock := { sock0 with guestId := d.guestId, userId := d.userId,
                           guestDetails := d.guestDetails }
  if failAt = some 0 then caught db sock [] else
  let q := buildQuery d.userId d.guestId sock.id
  match findSession db q with
  | some s =>
    if failAt = some 1 then caught db sock [] else
    let gd1 := match d.guestDetails with
      | some gd => mergeGD s.guestDetails gd
      | none => s.guestDetails
    let s1 := { s with socketId := sock.id, isActive := true, guestDetails := gd1 }
    let db1 := saveSession db s1
    -- join both the identity room and the storage-id room
    let roomName := orTruthy s1.guestId (orTruthy s1.userId (natToStr s1._id))
    let sock1 := joinRoom (joinRoom sock roomName) (natToStr s1._id)
    if failAt = some 2 then caught db1 sock1 [] else
    let history := sortByKey (fun m => m.createdAt)
      (db1.messages.filter (fun m => m.sessionId = s1._id))
    ⟨db1, sock1, [⟨.toSelf, .sessionJoined (some s1._id) history⟩], [], false⟩
  | none =>
    -- lazy creation: no session row is written here
    let sock1 := match d.guestId with
      | some g => if g.isEmpty then sock else joinRoom sock g
      | none => sock
    ⟨db, sock1, [⟨.toSelf, .sessionJoined none []⟩], [], false⟩

/-- The inbound user message persisted by `send_message`
(src/index.js lines 731-737). -/
def mkUserMsg (mid sid : Nat) (text : Str) (now : Nat) : ChatMessage :=
  { _id := mid, sessionId := sid, sender := .user, message := text,
    isRead := false, createdAt := now }

/-- Common tail of the `send_message` handler once the session is in
hand (src/index.js lines 730-808): persist the user message, update
last-activity, echo to the sender, notify admins, match an intent and
schedule the delayed bot reply.  `base` is the index of the next store
operation (`userMsg.save()`). -/
def continueSend (failAt : Option Nat) (base : Nat) (now : Nat) (db : DB) (sock : Sock)
    (s : ChatSession) (text : Str) : HResult :=
  if failAt = some base then caught db sock [] else
  let userMsg := mkUserMsg db.nextId s._id text now
  let db1 := insertMessage db userMsg
  if failAt = some (base + 1) then caught db1 sock [] else
  let s1 := { s with lastActivity := now, isActive := true }
  let db2 := saveSession db1 s1
  let evs : List TEvent :=
    [⟨.toSelf, .message userMsg⟩, ⟨.broadcast, .adminNewMessage s1._id userMsg s1⟩]
  if failAt = some (base + 2) then caught db2 sock evs else
  let rep := match findMatchedIntent text (activeIntentsSorted db2) with
    | some it => mkBotReply s1._id it sock.id
    | none => fallbackReply s1._id sock.id
  ⟨db2, sock, evs, [rep], false⟩

/-- The `send_message` handler (src/index.js lines 698-813).
Store operations: 0 `ChatSession.findOne`; found branch: 1
`userMsg.save()`, 2 `session.save()`, 3 `BotIntent.find`; create
branch: 1 `new ChatSession(...).save()`, 2 `userMsg.save()`, 3
`session.save()`, 4 `BotIntent.find`. -/
def sendMessage (failAt : Option Nat) (now : Nat) (db : DB) (sock : Sock)
    (d : SendData) : HResult :=
  if failAt = some 0 then caught db sock [] else
  let q := buildQuery d.userId d.guestId sock.id
  match findSession db q with
  | some s => continueSend failAt 1 now db sock s d.message
  | none =>
    -- lazy create on first message
    if failAt = some 1 then caught db sock [] else
    let s : ChatSession :=
      { _id := db.nextId,
        userId := if truthy d.userId then d.userId else none,
        guestId := if truthy d.guestId then d.guestId else sock.guestId,
        guestDetails := sock.guestDetails.getD {},
        socketId := sock.id,
        isActive := true,
        lastActivity := now,
        ipAddress := some sock.ip,
        userAgent := sock.userAgent }
    let db1 := insertSession db s
    let roomName := orTruthy s.guestId (orTruthy s.userId (natToStr s._id))
    let sock1 := joinRoom (joinRoom sock roomName) (natToStr s._id)
    continueSend failAt 2 now db1 sock1 s d.message

/-- Payload of the `end_chat` event. -/
structure EndData where
  guestId : Option Str := none
deriving DecidableEq, Repr

/-- The `end_chat` handler (src/index.js lines 665-695).  The update
object also names `endedAt` and `endedByUser`, but `chatSessionSchema`
declares neither field, and Mongoose strict mode (the default) strips
paths not in the schema from updates: only `isActive: false` reaches
the persisted row.  Store operations: 0 `ChatSession.findOneAndUpdate`
(executed only when the guest id is truthy). -/
def endChat (failAt : Option Nat) (db : DB) (sock : Sock) (d : EndData) : HResult :=
  match d.guestId with
  | some g =>
    if g.isEmpty then ⟨db, sock, [], [], false⟩ else
    if failAt = some 0 then caught db sock [] else
    match findSession db (.byGuest g) with
    | some s =>
      let s1 := { s with isActive := false }
      let db1 := saveSession db s1
      ⟨db1, sock,
        [⟨.toSelf, .chatEnded true⟩, ⟨.broadcast, .userEndedChat s1._id s1.guestDetails⟩],
        [], false⟩
    | none => ⟨db, sock, [], [], false⟩
  | none => ⟨db, sock, [], [], false⟩

/-- Payload of the `admin_reply` event. -/
structure AdminReplyData where
  sessionId : Nat
  message : Str
deriving DecidableEq, Repr

/-- The `admin_reply` handler (src/index.js lines 822-850).
Store operations: 0 `adminMsg.save()`, 1 `ChatSession.findByIdAndUpdate`. -/
def adminReply (failAt : Option Nat) (now : Nat) (db : DB) (sock : Sock)
    (d : AdminReplyData) : HResult :=
  if failAt = some 0 then caught db sock [] else
  let adminMsg : ChatMessage :=
    { _id := db.nextId, sessionId := d.sessionId, sender := .admin,
      message := d.message, isRead := false, createdAt := now }
  let db1 := insertMessage db adminMsg
  if failAt = some 1 then caught db1 sock [] else
  let db2 := { db1 with sessions := db1.sessions.map (fun t =>
      if t._id = d.sessionId then { t with lastActivity := now } else t) }
  ⟨db2, sock,
    [⟨.toRoom (natToStr d.sessionId), .message adminMsg⟩,
     ⟨.toSelf, .adminMessageSent adminMsg⟩], [], false⟩

/-- Payload of the `delete_message` event. -/
structure DelMsgData where
  messageId : Nat
  sessionId : Nat
deriving DecidableEq, Repr

/-- The `delete_message` handler (src/index.js lines 853-875): soft
delete only.  Store operations: 0 `ChatMessage.findByIdAndUpdate`. -/
def deleteMessage (failAt : Option Nat) (db : DB) (sock : Sock) (d : DelMsgData) : HResult :=
  if failAt = some 0 then caught db sock [] else
  match db.messages.find? (fun m => m._id = d.messageId) with
  | some m =>
    let db1 := saveMessage db { m with isDeleted := true }
    ⟨db1, sock, [⟨.toRoom (natToStr d.sessionId), .messageDeleted d.messageId d.sessionId⟩],
      [], false⟩
  | none => ⟨db, sock, [], [], false⟩

/-- The `delete_session` handler (src/index.js lines 878-911): soft
delete by storage id, falling back to lookup by last-known socket id;
marks inactive; broadcasts; does not touch messages.  Store
operations: 0 `ChatSession.findByIdAndUpdate`, 1 (only when 0 found
nothing) `ChatSession.findOneAndUpdate({socketId})`. -/
def deleteSession (failAt : Option Nat) (db : DB) (sock : Sock) (sid : Str) : HResult :=
  if failAt = some 0 then caught db sock [] else
  match db.sessions.find? (fun s => natToStr s._id = sid) with
  | some s =>
    let s1 := { s with isDeleted := true, isActive := false }
    let db1 := saveSession db s1
    let userName := orTruthy s1.userId (orTruthy s1.guestDetails.name "Guest".data)
    ⟨db1, sock, [⟨.broadcast, .sessionDeleted sid userName⟩], [], false⟩
  | none =>
    if failAt = some 1 then caught db sock [] else
    match findSession db (.bySocket sid) with
    | some s =>
      let s1 := { s with isDeleted := true, isActive := false }
      let db1 := saveSession db s1
      let userName := orTruthy s1.userId (orTruthy s1.guestDetails.name "Guest".data)
      ⟨db1, sock, [⟨.broadcast, .sessionDeleted sid userName⟩], [], false⟩
    | none => ⟨db, sock, [], [], false⟩

/-! ## Admin REST surface for sessions (src/routes/storage.js) -/

/-- The filter built by `GET /sessions` from the `status` query
parameter (src/routes/storage.js lines 248-251): `status === 'active'`
selects active sessions, `status === 'inactive'` inactive ones,
anything else (or no parameter) selects everything.  No soft-delete
filter is applied. -/
def statusPred (status : Option Str) (s : ChatSession) : Bool :=
  match status with
  | some st =>
    if st = "active".data then s.isActive
    else if st = "inactive".data then !s.isActive
    else true
  | none => true

/-- `GET /sessions` (src/routes/storage.js lines 247-274): filter by
status, sort by last activity descending, paginate. -/
def listSessions (db : DB) (status : Option Str) (lim pg : Nat) : List ChatSession :=
  ((sortDescBy (fun s => (s.lastActivity : Int)) (db.sessions.filter (statusPred status))).drop
    ((pg - 1) * lim)).take lim

/-- `GET /history/:sessionId` (src/routes/storage.js lines 277-290):
all messages of the session, by creation time ascending; no
soft-delete filter. -/
def historyRead (db : DB) (sid : Nat) : List ChatMessage :=
  sortByKey (fun m => m.createdAt) (db.messages.filter (fun m => m.sessionId = sid))

/-- `DELETE /sessions/:id` (src/routes/storage.js lines 293-308): hard
delete of the session and cascade delete of its messages; `none`
models the 404 when the session does not exist. -/
def cascadeDeleteSession (db : DB) (sid : Nat) : Option DB :=
  match db.sessions.find? (fun s => s._id = sid) with
  | some _ => some { db with
      sessions := db.sessions.filter (fun s => !(s._id = sid)),
      messages := db.messages.filter (fun m => !(m.sessionId = sid)) }
  | none => none

/-! ## Standalone overlap-score matcher
(src/services/intentRecognition.js).  The tokenizer and the Porter
stemmer come from the external `natural` package and are passed as
function parameters. -/

/-- `processMessage` (lines 22-25): lowercase, tokenize, stem. -/
def processMessage (tokenize : Str → List Str) (stem : Str → Str) (message : Str) :
    List Str :=
  (tokenize (toLowerStr message)).map stem

/-- `calculateSimilarity` (lines 28-39): the fraction of message
tokens present in the stemmed keyword set, over the total number of
stemmed keywords.  Each token occurrence counts, as in the source's
`forEach` counter.  (With no keywords the source computes `0/0 = NaN`,
which fails every comparison; here `0/0 = 0`, which likewise can never
be selected.) -/
def calculateSimilarity (stem : Str → Str) (messageTokens : List Str)
    (keywords : List Str) : ℚ :=
  let stemmedKeywords := keywords.map (fun kw => stem (toLowerStr kw))
  let matchCount := messageTokens.countP (fun t => decide (t ∈ stemmedKeywords))
  (matchCount : ℚ) / (stemmedKeywords.length : ℚ)

/-- The selection loop of `recognizeIntent` (lines 53-64): keep the
first intent strictly improving the best score seen so far, subject to
the 0.3 threshold. -/
def selectLoop (score : BotIntent → ℚ) : List BotIntent → Option BotIntent → ℚ →
    Option BotIntent
  | [], best, _ => best
  | i :: rest, best, hi =>
    if hi < score i ∧ 3/10 ≤ score i then selectLoop score rest (some i) (score i)
    else selectLoop score rest best hi

/-- `recognizeIntent` (lines 42-75), as a pure function of the cached
intents list: `null` for an empty or whitespace-only message,
otherwise the best-scoring intent above the threshold.  (The lazy
cache reload and the match-analytics update are persistence side
effects outside the matching semantics.) -/
def recognizeIntent (tokenize : Str → List Str) (stem : Str → Str)
    (intents : List BotIntent) (message : Str) : Option BotIntent :=
  if (trimStr message).length = 0 then none
  else
    let messageTokens := processMessage tokenize stem message
    selectLoop (fun i => calculateSimilarity stem messageTokens i.keywords) intents none 0

/-! ## Scenario helpers for the session-uniqueness claim -/

/-- Number of session rows carrying a given guest id. -/
def countGuest (db : DB) (g : Str) : Nat :=
  db.sessions.countP (fun s => decide (s.guestId = some g))

/-- Run a sequence of `send_message` events that all carry the same
guest id (and no user id), sequentially, the wall clock ticking
between events. -/
def sendGuestMsgs (now : Nat) (g : Str) (db : DB) (sock : Sock) :
    List Str → DB × Sock
  | [] => (db, sock)
  | m :: ms =>
    let r := sendMessage none now db sock ⟨m, none, some g⟩
    sendGuestMsgs (now + 1) g r.db r.sock ms

/-- Boolean check that an intents list is sorted by descending
priority (the shape produced by `.sort({ priority: -1 })`). -/
def sortedByPriorityDesc : List BotIntent → Bool
  | [] => true
  | [_] => true
  | a :: b :: rest => b.priority ≤ a.priority && sortedByPriorityDesc (b :: rest)

/-! # Claims -/

/-- C1: For every incoming chat event carrying an identity triple
`{userId?, guestId?, connectionId}` — both `join_session` and
`send_message` build their lookup query with the same conditional,
embedded once as `buildQuery` — the session lookup resolves strictly
in the order: by userId when userId is present, else by guestId when
guestId is present, else by the last-known socket id; in particular an
input carrying both a userId and a guestId resolves by userId. -/
theorem c1_resolution_order (u g sid : Str) (hu : u ≠ []) (hg : g ≠ []) :
    buildQuery (some u) (some g) sid = IdQuery.byUser u
    ∧ buildQuery (some u) none sid = IdQuery.byUser u
    ∧ buildQuery none (some g) sid = IdQuery.byGuest g
    ∧ buildQuery none none sid = IdQuery.bySocket sid := by
  simp [buildQuery, guestOrSocket, List.isEmpty_iff, hu, hg]

/-- Witness for C1 at a concrete identity triple. -/
theorem c1_witness :
    ("u1".data ≠ [] ∧ "g1".data ≠ [])
    ∧ buildQuery (some "u1".data) (some "g1".data) "s1".data = IdQuery.byUser "u1".data :=
  ⟨by decide, (c1_resolution_order "u1".data "g1".data "s1".data (by decide) (by decide)).1⟩

/-- `find?` returns the first element satisfying the predicate: the
list splits at the hit and everything before it fails the predicate. -/
theorem find?_first {α : Type} (p : α → Bool) :
    ∀ (l : List α) (a : α), l.find? p = some a →
      ∃ pre post, l = pre ++ a :: post ∧ ∀ j ∈ pre, p j = false := by
  intro l
  induction l with
  | nil => intro a h; simp [List.find?] at h
  | cons x xs ih =>
    intro a h
    rw [List.find?_cons] at h
    cases hx : p x with
    | true =>
      rw [hx] at h
      simp only [Option.some.injEq] at h
      exact ⟨[], xs, by simp [h], by simp⟩
    | false =>
      rw [hx] at h
      obtain ⟨pre, post, hsplit, hpre⟩ := ih a h
      refine ⟨x :: pre, post, by simp [hsplit], ?_⟩
      intro j hj
      rcases List.mem_cons.mp hj with rfl | hj
      · exact hx
      · exact hpre j hj

/-- C3: the inline substring matcher, given the active intents sorted
by descending priority, returns the first intent in that order for
which some keyword is a case-insensitive substring of the message,
and returns no intent exactly when no listed intent has such a
keyword; no score or threshold is involved (none appears in the
definition). -/
theorem c3_substring_matcher (msg : Str) (intents : List BotIntent)
    (_hact : ∀ i ∈ intents, i.isActive = true)
    (_hsorted : sortedByPriorityDesc intents = true) :
    (∀ i, findMatchedIntent msg intents = some i →
      keywordHit msg i = true
      ∧ ∃ pre post, intents = pre ++ i :: post ∧ ∀ j ∈ pre, keywordHit msg j = false)
    ∧ (findMatchedIntent msg intents = none ↔ ∀ i ∈ intents, keywordHit msg i = false)
    ∧ (∀ i, keywordHit msg i = true ↔
        ∃ k ∈ i.keywords, isSubstrOf (toLowerStr k) (toLowerStr msg) = true) := by
  refine ⟨?_, ?_, ?_⟩
  · intro i h
    exact ⟨List.find?_some h, find?_first (keywordHit msg) intents i h⟩
  · constructor
    · intro h i hi
      have := List.find?_eq_none.mp h i hi
      simpa using this
    · intro h
      apply List.find?_eq_none.mpr
      intro i hi
      simp [h i hi]
  · intro i
    simp [keywordHit, List.any_eq_true]

/-- Witness for C3: with two active intents sorted by priority, a
message hitting both keywords matches the first, and a message hitting
none yields no intent. -/
theorem c3_witness :
    ((∀ i ∈ [BotIntent.mk 1 "book".data ["book".data] "Book resp".data [] true 5 0 none,
              BotIntent.mk 2 "hi".data ["hello".data] "Hi resp".data [] true 1 0 none],
        i.isActive = true)
      ∧ sortedByPriorityDesc
          [BotIntent.mk 1 "book".data ["book".data] "Book resp".data [] true 5 0 none,
           BotIntent.mk 2 "hi".data ["hello".data] "Hi resp".data [] true 1 0 none] = true)
    ∧ (findMatchedIntent "I want to BOOK a puja, hello".data
        [BotIntent.mk 1 "book".data ["book".data] "Book resp".data [] true 5 0 none,
         BotIntent.mk 2 "hi".data ["hello".data] "Hi resp".data [] true 1 0 none]
        = none
      ↔ ∀ i ∈ [BotIntent.mk 1 "book".data ["book".data] "Book resp".data [] true 5 0 none,
               BotIntent.mk 2 "hi".data ["hello".data] "Hi resp".data [] true 1 0 none],
          keywordHit "I want to BOOK a puja, hello".data i = false) :=
  ⟨⟨by decide, by decide⟩,
    (c3_substring_matcher "I want to BOOK a puja, hello".data
      [BotIntent.mk 1 "book".data ["book".data] "Book resp".data [] true 5 0 none,
       BotIntent.mk 2 "hi".data ["hello".data] "Hi resp".data [] true 1 0 none]
      (by decide) (by decide)).2.1⟩

/-- Invariant of the `recognizeIntent` selection loop: a returned
intent comes from the list (or was the carried best), clears the 0.3
threshold, scores at least the carried high score, and no listed
intent strictly beats it (any listed intent either scores no higher or
misses the threshold). -/
theorem selectLoop_spec (score : BotIntent → ℚ) :
    ∀ (l : List BotIntent) (best : Option BotIntent) (hi : ℚ) (i : BotIntent),
      (∀ b, best = some b → hi = score b ∧ 3/10 ≤ hi) →
      selectLoop score l best hi = some i →
      (i ∈ l ∨ best = some i) ∧ 3/10 ≤ score i ∧ hi ≤ score i
        ∧ ∀ j ∈ l, score j ≤ score i ∨ score j < 3/10 := by
  intro l
  induction l with
  | nil =>
    intro best hi i hinv h
    simp only [selectLoop] at h
    obtain ⟨heq, hth⟩ := hinv i h
    exact ⟨Or.inr h, heq ▸ hth, le_of_eq heq, by simp⟩
  | cons x xs ih =>
    intro best hi i hinv h
    simp only [selectLoop] at h
    by_cases hc : hi < score x ∧ 3/10 ≤ score x
    · rw [if_pos hc] at h
      obtain ⟨hmem, hth, hge, hall⟩ := ih (some x) (score x) i
        (fun b hb => by cases hb; exact ⟨rfl, hc.2⟩) h
      refine ⟨?_, hth, le_trans (le_of_lt hc.1) hge, ?_⟩
      · rcases hmem with hmem | hmem
        · exact Or.inl (List.mem_cons_of_mem x hmem)
        · cases hmem; exact Or.inl (List.mem_cons_self x xs)
      · intro j hj
        rcases List.mem_cons.mp hj with rfl | hj
        · exact Or.inl hge
        · exact hall j hj
    · rw [if_neg hc] at h
      obtain ⟨hmem, hth, hge, hall⟩ := ih best hi i hinv h
      refine ⟨?_, hth, hge, ?_⟩
      · rcases hmem with hmem | hmem
        · exact Or.inl (List.mem_cons_of_mem x hmem)
        · exact Or.inr hmem
      · intro j hj
        rcases List.mem_cons.mp hj with rfl | hj
        · rcases not_and_or.mp hc with hlt | hth'
          · exact Or.inl (le_trans (not_lt.mp hlt) hge)
          · exact Or.inr (not_le.mp hth')
        · exact hall j hj

/-- C4: the standalone overlap-score matcher returns no match for an
empty or whitespace-only message; and when it returns an intent, that
intent is among the given ones, its ratio of stemmed message tokens
found in the stemmed keyword set over total stemmed keywords is at
least 0.30, and no other intent has a strictly greater ratio. -/
theorem c4_overlap_matcher (tokenize : Str → List Str) (stem : Str → Str)
    (intents : List BotIntent) (message : Str) :
    ((trimStr message).length = 0 →
      recognizeIntent tokenize stem intents message = none)
    ∧ (∀ i, recognizeIntent tokenize stem intents message = some i →
        i ∈ intents
        ∧ 3/10 ≤ calculateSimilarity stem (processMessage tokenize stem message) i.keywords
        ∧ ∀ j ∈ intents,
            calculateSimilarity stem (processMessage tokenize stem message) j.keywords
              ≤ calculateSimilarity stem (processMessage tokenize stem message) i.keywords) := by
  constructor
  · intro h
    simp [recognizeIntent, h]
  · intro i h
    rw [recognizeIntent] at h
    by_cases hz : (trimStr message).length = 0
    · rw [if_pos hz] at h; cases h
    · rw [if_neg hz] at h
      obtain ⟨hmem, hth, _, hall⟩ :=
        selectLoop_spec (fun j => calculateSimilarity stem
          (processMessage tokenize stem message) j.keywords)
          intents none 0 i (fun b hb => by cases hb) h
      refine ⟨?_, hth, ?_⟩
      · rcases hmem with hmem | hmem
        · exact hmem
        · cases hmem
      · intro j hj
        rcases hall j hj with hle | hlt
        · exact hle
        · exact le_trans (le_of_lt hlt) hth

/-- Witness for C4 at a concrete input: a whitespace-only message
yields no match (with a one-token tokenizer and the identity
stemmer). -/
theorem c4_witness :
    ((trimStr "  ".data).length = 0)
    ∧ recognizeIntent (fun s => [s]) (fun s => s)
        [BotIntent.mk 1 "book".data ["book".data] "Book resp".data [] true 5 0 none]
        "  ".data = none :=
  ⟨by decide,
    (c4_overlap_matcher (fun s => [s]) (fun s => s)
      [BotIntent.mk 1 "book".data ["book".data] "Book resp".data [] true 5 0 none]
      "  ".data).1 (by decide)⟩

/-- `socket.join(r)` puts `r` among the socket's rooms. -/
theorem mem_joinRoom_self (sock : Sock) (r : Str) : r ∈ (joinRoom sock r).rooms := by
  by_cases h : r ∈ sock.rooms <;> simp [joinRoom, h]

/-- C8: a `join_session` whose identity resolves to no session writes
nothing to the store (the store is returned unchanged), joins the
provisional guest room when a guest id was supplied, and emits exactly
one `session_joined` event carrying a null session id and an empty
history; nothing is logged and no bot reply is scheduled. -/
theorem c8_join_not_found (db : DB) (sock0 : Sock) (d : JoinData)
    (hnone : findSession db (buildQuery d.userId d.guestId sock0.id) = none) :
    (joinSession none db sock0 d).db = db
    ∧ (joinSession none db sock0 d).events
        = [⟨Target.toSelf, OutEvent.sessionJoined none []⟩]
    ∧ (joinSession none db sock0 d).delayed = []
    ∧ (joinSession none db sock0 d).logged = false
    ∧ ∀ g, d.guestId = some g → g ≠ [] →
        g ∈ (joinSession none db sock0 d).sock.rooms := by
  have hid : ({ sock0 with guestId := d.guestId, userId := d.userId, guestDetails := d.guestDetails } : Sock).id = sock0.id := rfl
  simp only [joinSession, hid, hnone, reduceCtorEq, if_false]
  refine ⟨trivial, trivial, trivial, trivial, ?_⟩
  intro g hg hne
  rw [hg]
  simp only [List.isEmpty_iff, hne, if_false]
  exact mem_joinRoom_self _ g

/-- Witness for C8: a guest joining against an empty store leaves the
store unchanged. -/
theorem c8_witness :
    (findSession {} (buildQuery none (some "g1".data) "s1".data) = none)
    ∧ (joinSession none {} ({ id := "s1".data } : Sock)
        ⟨none, none, some "g1".data⟩).db = ({} : DB) :=
  ⟨rfl, (c8_join_not_found {} ({ id := "s1".data } : Sock)
    ⟨none, none, some "g1".data⟩ rfl).1⟩

/-- A concrete store for exercising `end_chat`: one session for guest
"g1" and one persisted message. -/
def c6session : ChatSession :=
  { _id := 0, guestId := some "g1".data, socketId := "s0".data,
    lastActivity := 5, isActive := true }

/-- The store holding `c6session` and one of its messages. -/
def c6db : DB :=
  { sessions := [c6session],
    messages := [{ _id := 1, sessionId := 0, sender := .user,
                   message := "hi".data, createdAt := 3 }],
    nextId := 2 }

/-- C6 (divergence witness): `end_chat({guestId:"g1"})` on a store
holding that guest's session leaves the persisted row equal to the old
row with only the active flag cleared — `chatSessionSchema` declares
no `endedAt` or `endedByUser` field, so Mongoose strict mode strips
both from the update and no end timestamp or ended-by-user flag is
stamped.  No session or message is deleted and the admin-facing
notification is broadcast. -/
theorem c6_end_chat_only_clears_active :
    (endChat none c6db ({ id := "sA".data } : Sock) ⟨some "g1".data⟩).db.sessions
      = [{ c6session with isActive := false }]
    ∧ (endChat none c6db ({ id := "sA".data } : Sock) ⟨some "g1".data⟩).db.messages
      = c6db.messages
    ∧ (endChat none c6db ({ id := "sA".data } : Sock) ⟨some "g1".data⟩).events
      = [⟨Target.toSelf, OutEvent.chatEnded true⟩,
         ⟨Target.broadcast, OutEvent.userEndedChat 0 c6session.guestDetails⟩] := by
  decide

/-- A soft-deleted session used to exercise the listing. -/
def c7session : ChatSession :=
  { _id := 3, guestId := some "g7".data, socketId := "s7".data,
    lastActivity := 9, isActive := false, isDeleted := true }

/-- A store holding only the soft-deleted session and one of its
messages, itself soft-deleted. -/
def c7db : DB :=
  { sessions := [c7session],
    messages := [{ _id := 4, sessionId := 3, sender := .user,
                   message := "hi".data, isDeleted := true, createdAt := 1 }],
    nextId := 10 }

/-- C7 counterexample: a session whose soft-delete flag is set IS
included in the default session listing (`GET /sessions` applies no
soft-delete filter), refuting the claim that it never appears. -/
theorem c7_counterexample :
    c7session.isDeleted = true
    ∧ c7session ∈ listSessions c7db none 50 1 := by
  decide

/-- Membership is invariant under `insertByKey`. -/
theorem mem_insertByKey {α : Type} (key : α → Nat) (x a : α) (l : List α) :
    a ∈ insertByKey key x l ↔ a = x ∨ a ∈ l := by
  induction l with
  | nil => simp [insertByKey]
  | cons y ys ih =>
    by_cases h : key x ≤ key y
    · simp [insertByKey, h]
    · simp [insertByKey, h, ih]
      tauto

/-- Sorting by key preserves membership. -/
theorem mem_sortByKey {α : Type} (key : α → Nat) (a : α) (l : List α) :
    a ∈ sortByKey key l ↔ a ∈ l := by
  induction l with
  | nil => simp [sortByKey]
  | cons y ys ih => simp [sortByKey, mem_insertByKey, ih]

/-- C7 amended: the session listing's filter ignores the soft-delete
flag entirely (so soft-deleted sessions appear in the default listing
exactly like others); a session's messages remain retrievable by a
direct session-id history read — every stored message of the session,
soft-deleted or not, is in the read — until the hard cascade delete,
which removes the session and all of its messages. -/
theorem c7_soft_delete_semantics :
    (∀ (status : Option Str) (s : ChatSession) (b : Bool),
      statusPred status s = statusPred status { s with isDeleted := b })
    ∧ (∀ (db : DB) (sid : Nat) (m : ChatMessage),
        m ∈ db.messages → m.sessionId = sid → m ∈ historyRead db sid)
    ∧ (∀ (db : DB) (sid : Nat) (db' : DB),
        cascadeDeleteSession db sid = some db' →
          (∀ m ∈ db'.messages, m.sessionId ≠ sid)
          ∧ ∀ s ∈ db'.sessions, s._id ≠ sid) := by
  refine ⟨?_, ?_, ?_⟩
  · intro status s b
    cases status with
    | none => rfl
    | some st => simp [statusPred]
  · intro db sid m hm hsid
    rw [historyRead, mem_sortByKey]
    simp [List.mem_filter, hm, hsid]
  · intro db sid db' h
    rw [cascadeDeleteSession] at h
    cases hf : db.sessions.find? (fun s => s._id = sid) with
    | none => rw [hf] at h; cases h
    | some s0 =>
      rw [hf] at h
      simp only [Option.some.injEq] at h
      subst h
      constructor
      · intro m hm
        have := (List.mem_filter.mp hm).2
        simpa using this
      · intro s hs
        have := (List.mem_filter.mp hs).2
        simpa using this

/-- Witness for C7 amended: the soft-deleted message of the
soft-deleted session is still returned by the direct history read. -/
theorem c7_witness :
    ({ _id := 4, sessionId := 3, sender := .user, message := "hi".data,
       isDeleted := true, createdAt := 1 } : ChatMessage) ∈ c7db.messages
    ∧ ({ _id := 4, sessionId := 3, sender := .user, message := "hi".data,
         isDeleted := true, createdAt := 1 } : ChatMessage) ∈ historyRead c7db 3 :=
  ⟨by decide,
    c7_soft_delete_semantics.2.1 c7db 3
      { _id := 4, sessionId := 3, sender := .user, message := "hi".data,
        isDeleted := true, createdAt := 1 } (by decide) rfl⟩

/-- C10: soft deletion does not hide anything from the socket path:
the session lookup predicate ignores the soft-delete flag; a
`join_session` resolving to a soft-deleted session still resumes it
(persists it re-bound to the connection and active again, soft-delete
flag left set) and emits a history containing every stored message of
the session, soft-deleted messages included; and a `send_message`
resolving to it likewise re-activates it with the soft-delete flag
left set. -/
theorem c10_soft_delete_not_hidden (db : DB) (sock0 : Sock) (d : JoinData)
    (s : ChatSession)
    (hfound : findSession db (buildQuery d.userId d.guestId sock0.id) = some s)
    (hdel : s.isDeleted = true) :
    (∀ (q : IdQuery) (t : ChatSession) (b : Bool),
      matchesQuery q t = matchesQuery q { t with isDeleted := b })
    ∧ (∃ s1, s1 ∈ (joinSession none db sock0 d).db.sessions
        ∧ s1._id = s._id ∧ s1.isActive = true ∧ s1.isDeleted = true
        ∧ s1.socketId = sock0.id)
    ∧ (∃ hist, (joinSession none db sock0 d).events
        = [⟨Target.toSelf, OutEvent.sessionJoined (some s._id) hist⟩]
        ∧ ∀ m ∈ db.messages, m.sessionId = s._id → m ∈ hist)
    ∧ (∀ (now : Nat) (text : Str), ∃ s2,
        s2 ∈ (sendMessage none now db sock0 ⟨text, d.userId, d.guestId⟩).db.sessions
        ∧ s2._id = s._id ∧ s2.isActive = true ∧ s2.isDeleted = true) := by
  have hid : ({ sock0 with guestId := d.guestId, userId := d.userId, guestDetails := d.guestDetails } : Sock).id = sock0.id := rfl
  have hmem : s ∈ db.sessions := List.mem_of_find?_eq_some hfound
  refine ⟨?_, ?_, ?_, ?_⟩
  · intro q t b
    cases q <;> rfl
  · simp only [joinSession, hid, hfound, reduceCtorEq, if_false]
    refine ⟨_, List.mem_map_of_mem _ hmem, ?_, ?_, ?_, ?_⟩ <;> simp [hdel]
  · simp only [joinSession, hid, hfound, reduceCtorEq, if_false]
    refine ⟨_, rfl, ?_⟩
    intro m hm hsid
    rw [mem_sortByKey]
    simp only [saveSession, List.mem_filter]
    exact ⟨hm, by simp [hsid]⟩
  · intro now text
    simp only [sendMessage, hfound, reduceCtorEq, if_false, continueSend, saveSession,
      insertMessage]
    refine ⟨_, List.mem_map_of_mem _ hmem, ?_, ?_, ?_⟩ <;> simp [hdel]

/-- Witness for C10: joining as guest "g7" resumes the soft-deleted
session of `c7db`, re-activating it with the soft-delete flag left
set. -/
theorem c10_witness :
    (findSession c7db (buildQuery none (some "g7".data) "s9".data) = some c7session
      ∧ c7session.isDeleted = true)
    ∧ ∃ s1, s1 ∈ (joinSession none c7db ({ id := "s9".data } : Sock)
          ⟨none, none, some "g7".data⟩).db.sessions
        ∧ s1._id = c7session._id ∧ s1.isActive = true ∧ s1.isDeleted = true
        ∧ s1.socketId = "s9".data :=
  ⟨⟨by decide, by decide⟩,
    (c10_soft_delete_not_hidden c7db ({ id := "s9".data } : Sock)
      ⟨none, none, some "g7".data⟩ c7session (by decide) (by decide)).2.1⟩

/-- `activeIntentsSorted` only reads the intents collection, which
`session.save()` does not touch. -/
theorem activeIntentsSorted_saveSession (db : DB) (s : ChatSession) :
    activeIntentsSorted (saveSession db s) = activeIntentsSorted db := rfl

/-- ... nor does persisting a message touch it. -/
theorem activeIntentsSorted_insertMessage (db : DB) (m : ChatMessage) :
    activeIntentsSorted (insertMessage db m) = activeIntentsSorted db := rfl

/-- ... nor does persisting a session. -/
theorem activeIntentsSorted_insertSession (db : DB) (s : ChatSession) :
    activeIntentsSorted (insertSession db s) = activeIntentsSorted db := rfl

/-- Running the timer callback persists exactly one bot message
(appended to the message store) and emits exactly one event, to the
scheduled room; the message body is the scheduled text. -/
theorem runDelayedReply_spec (now2 : Nat) (db : DB) (rep : DelayedReply) :
    ∃ botMsg : ChatMessage,
      (runDelayedReply now2 db rep).1.messages = db.messages ++ [botMsg]
      ∧ (runDelayedReply now2 db rep).2 = [⟨Target.toRoom rep.targetRoom, OutEvent.message botMsg⟩]
      ∧ botMsg.message = rep.text ∧ botMsg.sender = Sender.bot
      ∧ botMsg.sessionId = rep.sessionId ∧ botMsg.isRead = true := by
  cases h : rep.intentId with
  | none =>
    refine ⟨{ _id := db.nextId, sessionId := rep.sessionId, sender := .bot, message := rep.text, isRead := true, intent := rep.intentLabel, quickReplies := rep.quickReplies, createdAt := now2 }, ?_, ?_, rfl, rfl, rfl, rfl⟩
    · simp [runDelayedReply, h, insertMessage]
    · simp [runDelayedReply, h]
  | some iid =>
    refine ⟨{ _id := db.nextId, sessionId := rep.sessionId, sender := .bot, message := rep.text, isRead := true, intent := rep.intentLabel, quickReplies := rep.quickReplies, createdAt := now2 }, ?_, ?_, rfl, rfl, rfl, rfl⟩
    · simp [runDelayedReply, h, insertMessage, bumpIntentStats]
    · simp [runDelayedReply, h]

/-- `socket.join` does not change the socket id. -/
theorem joinRoom_id (sock : Sock) (r : Str) : (joinRoom sock r).id = sock.id := by
  by_cases h : r ∈ sock.rooms <;> simp [joinRoom, h]

/-- In a failure-free run, the send tail schedules exactly the
matched intent's reply... -/
theorem continueSend_delayed_matched (base now : Nat) (db0 : DB) (sock : Sock)
    (s : ChatSession) (text : Str) (it : BotIntent)
    (hit : findMatchedIntent text (activeIntentsSorted db0) = some it) :
    (continueSend none base now db0 sock s text).delayed = [mkBotReply s._id it sock.id] := by
  simp only [continueSend, reduceCtorEq, if_false, activeIntentsSorted_saveSession,
    activeIntentsSorted_insertMessage, hit]

/-- ... or exactly the fallback reply when no intent matches. -/
theorem continueSend_delayed_fallback (base now : Nat) (db0 : DB) (sock : Sock)
    (s : ChatSession) (text : Str)
    (hmiss : findMatchedIntent text (activeIntentsSorted db0) = none) :
    (continueSend none base now db0 sock s text).delayed = [fallbackReply s._id sock.id] := by
  simp only [continueSend, reduceCtorEq, if_false, activeIntentsSorted_saveSession,
    activeIntentsSorted_insertMessage, hmiss]

/-- C5: under the substring-matcher policy, a failure-free
`send_message` schedules exactly one bot reply with the fixed 1000 ms
delay, targeted at the room named by the originating socket id (which
contains only the originating connection): when some active intent's
keyword occurs case-insensitively in the message, running the delayed
callback persists a bot message whose body equals that intent's
configured response and emits it once to that room; when no active
intent matches, the persisted and emitted bot message is the fixed
fallback reply inviting human escalation. -/
theorem c5_send_message_bot_reply (now now2 : Nat) (db : DB) (sock : Sock) (d : SendData) :
    (∀ it, findMatchedIntent d.message (activeIntentsSorted db) = some it →
      ∃ sid, (sendMessage none now db sock d).delayed = [mkBotReply sid it sock.id]
        ∧ (mkBotReply sid it sock.id).delayMs = 1000
        ∧ (mkBotReply sid it sock.id).text = it.response
        ∧ ∃ botMsg,
            (runDelayedReply now2 (sendMessage none now db sock d).db
                (mkBotReply sid it sock.id)).1.messages
              = (sendMessage none now db sock d).db.messages ++ [botMsg]
            ∧ (runDelayedReply now2 (sendMessage none now db sock d).db
                (mkBotReply sid it sock.id)).2
              = [⟨Target.toRoom sock.id, OutEvent.message botMsg⟩]
            ∧ botMsg.message = it.response ∧ botMsg.sender = Sender.bot)
    ∧ (findMatchedIntent d.message (activeIntentsSorted db) = none →
      ∃ sid, (sendMessage none now db sock d).delayed = [fallbackReply sid sock.id]
        ∧ (fallbackReply sid sock.id).delayMs = 1000
        ∧ ∃ botMsg,
            (runDelayedReply now2 (sendMessage none now db sock d).db
                (fallbackReply sid sock.id)).1.messages
              = (sendMessage none now db sock d).db.messages ++ [botMsg]
            ∧ (runDelayedReply now2 (sendMessage none now db sock d).db
                (fallbackReply sid sock.id)).2
              = [⟨Target.toRoom sock.id, OutEvent.message botMsg⟩]
            ∧ botMsg.message = fallbackText ∧ botMsg.sender = Sender.bot) := by
  constructor
  · intro it hit
    cases hfs : findSession db (buildQuery d.userId d.guestId sock.id) with
    | some s =>
      refine ⟨s._id, ?_, rfl, rfl, ?_⟩
      · simp only [sendMessage, hfs, reduceCtorEq, if_false]
        exact continueSend_delayed_matched 1 now db sock s d.message it hit
      · obtain ⟨botMsg, h1, h2, h3, h4, _, _⟩ :=
          runDelayedReply_spec now2 (sendMessage none now db sock d).db
            (mkBotReply s._id it sock.id)
        exact ⟨botMsg, h1, h2, h3, h4⟩
    | none =>
      refine ⟨db.nextId, ?_, rfl, rfl, ?_⟩
      · simp only [sendMessage, hfs, reduceCtorEq, if_false]
        have := continueSend_delayed_matched 2 now
          (insertSession db
            { _id := db.nextId,
              userId := if truthy d.userId then d.userId else none,
              guestId := if truthy d.guestId then d.guestId else sock.guestId,
              guestDetails := sock.guestDetails.getD {},
              socketId := sock.id, isActive := true, lastActivity := now,
              ipAddress := some sock.ip, userAgent := sock.userAgent })
          (joinRoom (joinRoom sock (orTruthy (if truthy d.guestId then d.guestId else sock.guestId) (orTruthy (if truthy d.userId then d.userId else none) (natToStr db.nextId)))) (natToStr db.nextId))
          { _id := db.nextId,
            userId := if truthy d.userId then d.userId else none,
            guestId := if truthy d.guestId then d.guestId else sock.guestId,
            guestDetails := sock.guestDetails.getD {},
            socketId := sock.id, isActive := true, lastActivity := now,
            ipAddress := some sock.ip, userAgent := sock.userAgent }
          d.message it hit
        simpa only [joinRoom_id] using this
      · obtain ⟨botMsg, h1, h2, h3, h4, _, _⟩ :=
          runDelayedReply_spec now2 (sendMessage none now db sock d).db
            (mkBotReply db.nextId it sock.id)
        exact ⟨botMsg, h1, h2, h3, h4⟩
  · intro hmiss
    cases hfs : findSession db (buildQuery d.userId d.guestId sock.id) with
    | some s =>
      refine ⟨s._id, ?_, rfl, ?_⟩
      · simp only [sendMessage, hfs, reduceCtorEq, if_false]
        exact continueSend_delayed_fallback 1 now db sock s d.message hmiss
      · obtain ⟨botMsg, h1, h2, h3, h4, _, _⟩ :=
          runDelayedReply_spec now2 (sendMessage none now db sock d).db
            (fallbackReply s._id sock.id)
        exact ⟨botMsg, h1, h2, h3, h4⟩
    | none =>
      refine ⟨db.nextId, ?_, rfl, ?_⟩
      · simp only [sendMessage, hfs, reduceCtorEq, if_false]
        have := continueSend_delayed_fallback 2 now
          (insertSession db
            { _id := db.nextId,
              userId := if truthy d.userId then d.userId else none,
              guestId := if truthy d.guestId then d.guestId else sock.guestId,
              guestDetails := sock.guestDetails.getD {},
              socketId := sock.id, isActive := true, lastActivity := now,
              ipAddress := some sock.ip, userAgent := sock.userAgent })
          (joinRoom (joinRoom sock (orTruthy (if truthy d.guestId then d.guestId else sock.guestId) (orTruthy (if truthy d.userId then d.userId else none) (natToStr db.nextId)))) (natToStr db.nextId))
          { _id := db.nextId,
            userId := if truthy d.userId then d.userId else none,
            guestId := if truthy d.guestId then d.guestId else sock.guestId,
            guestDetails := sock.guestDetails.getD {},
            socketId := sock.id, isActive := true, lastActivity := now,
            ipAddress := some sock.ip, userAgent := sock.userAgent }
          d.message hmiss
        simpa only [joinRoom_id] using this
      · obtain ⟨botMsg, h1, h2, h3, h4, _, _⟩ :=
          runDelayedReply_spec now2 (sendMessage none now db sock d).db
            (fallbackReply db.nextId sock.id)
        exact ⟨botMsg, h1, h2, h3, h4⟩

/-- A concrete active intent for the send_message scenario. -/
def c5intent : BotIntent :=
  { _id := 7, intent := "book_seva".data, keywords := ["book".data],
    response := "You can book a seva right away".data, priority := 5 }

/-- A store holding only that intent. -/
def c5db : DB := { intents := [c5intent] }

/-- Witness for C5: the message "I want to book a puja" matches the
"book" keyword and the scheduled bot reply carries the intent's
configured response. -/
theorem c5_witness :
    (findMatchedIntent "I want to book a puja".data (activeIntentsSorted c5db)
      = some c5intent)
    ∧ ∃ sid,
        (sendMessage none 1 c5db ({ id := "s5".data } : Sock)
          ⟨"I want to book a puja".data, none, some "g1".data⟩).delayed
          = [mkBotReply sid c5intent "s5".data]
        ∧ (mkBotReply sid c5intent "s5".data).delayMs = 1000
        ∧ (mkBotReply sid c5intent "s5".data).text = c5intent.response
        ∧ ∃ botMsg,
            (runDelayedReply 2 (sendMessage none 1 c5db ({ id := "s5".data } : Sock)
                ⟨"I want to book a puja".data, none, some "g1".data⟩).db
              (mkBotReply sid c5intent "s5".data)).1.messages
              = (sendMessage none 1 c5db ({ id := "s5".data } : Sock)
                  ⟨"I want to book a puja".data, none, some "g1".data⟩).db.messages
                ++ [botMsg]
            ∧ (runDelayedReply 2 (sendMessage none 1 c5db ({ id := "s5".data } : Sock)
                  ⟨"I want to book a puja".data, none, some "g1".data⟩).db
                (mkBotReply sid c5intent "s5".data)).2
              = [⟨Target.toRoom "s5".data, OutEvent.message botMsg⟩]
            ∧ botMsg.message = c5intent.response ∧ botMsg.sender = Sender.bot :=
  ⟨by decide,
    (c5_send_message_bot_reply 1 2 c5db ({ id := "s5".data } : Sock)
      ⟨"I want to book a puja".data, none, some "g1".data⟩).1 c5intent (by decide)⟩

/-! ## Session-uniqueness machinery (C2) -/

/-- `find?` over a list whose head part all fails the predicate finds
the appended element. -/
theorem find_append_right {α : Type} {p : α → Bool} {pre : List α} {x : α}
    (h : ∀ t ∈ pre, p t = false) (hx : p x = true) :
    (pre ++ [x]).find? p = some x := by
  rw [List.find?_append, List.find?_eq_none.mpr (fun t ht => by simp [h t ht])]
  simp [List.find?, hx]

/-- Replacement by an id occurring nowhere in the list is the
identity. -/
theorem map_skip {pre : List ChatSession} {i : Nat} {s1 : ChatSession}
    (h : ∀ t ∈ pre, t._id ≠ i) :
    pre.map (fun t => if t._id = i then s1 else t) = pre := by
  induction pre with
  | nil => rfl
  | cons x xs ih =>
    rw [List.map_cons, if_neg (h x (List.mem_cons_self x xs)),
      ih (fun t ht => h t (List.mem_cons_of_mem x ht))]

/-- Invariant: the store's sessions are a fixed guest-free head plus
exactly one row carrying guest id `g`, whose storage id collides with
no head row. -/
def GuestInv (g : Str) (pre : List ChatSession) (db : DB) : Prop :=
  ∃ s, db.sessions = pre ++ [s] ∧ s.guestId = some g
    ∧ ∀ t ∈ pre, t.guestId ≠ some g ∧ t._id ≠ s._id

/-- A store satisfying the invariant has exactly one session row for
`g`. -/
theorem countGuest_of_inv {g : Str} {pre : List ChatSession} {db : DB}
    (hinv : GuestInv g pre db) : countGuest db g = 1 := by
  obtain ⟨s, hsess, hgid, hpre⟩ := hinv
  rw [countGuest, hsess, List.countP_append]
  rw [List.countP_eq_zero.mpr (fun t ht => by simp [(hpre t ht).1])]
  simp [List.countP_cons, hgid]

/-- The identity query built for a guest-only event. -/
theorem buildQuery_guest (g : Str) (hg : g ≠ []) (sid : Str) :
    buildQuery none (some g) sid = IdQuery.byGuest g := by
  simp [buildQuery, guestOrSocket, List.isEmpty_iff, hg]

/-- A `send_message` carrying the invariant guest id preserves the
invariant: the lookup finds the unique row, which is updated in place;
no new row is inserted. -/
theorem send_preserves_inv (g : Str) (hg : g ≠ []) (pre : List ChatSession)
    (db : DB) (sock : Sock) (now : Nat) (m : Str)
    (hinv : GuestInv g pre db) :
    GuestInv g pre (sendMessage none now db sock ⟨m, none, some g⟩).db := by
  obtain ⟨s, hsess, hgid, hpre⟩ := hinv
  have hfind : findSession db (IdQuery.byGuest g) = some s := by
    rw [findSession, hsess]
    exact find_append_right
      (fun t ht => by simp [matchesQuery, (hpre t ht).1])
      (by simp [matchesQuery, hgid])
  simp only [sendMessage, buildQuery_guest g hg, hfind, reduceCtorEq, if_false,
    continueSend, saveSession, insertMessage]
  refine ⟨{ s with lastActivity := now, isActive := true }, ?_, hgid, ?_⟩
  · show db.sessions.map _ = _
    rw [hsess, List.map_append, map_skip (fun t ht => (hpre t ht).2)]
    simp
  · intro t ht
    exact ⟨(hpre t ht).1, (hpre t ht).2⟩

/-- A first-contact `send_message` (no session row for `g` yet)
establishes the invariant: exactly one new row, carrying `g`, is
appended. -/
theorem first_send_creates (g : Str) (hg : g ≠ []) (db : DB) (sock : Sock)
    (now : Nat) (m : Str)
    (hfree : ∀ t ∈ db.sessions, t.guestId ≠ some g)
    (hwf : ∀ t ∈ db.sessions, t._id < db.nextId) :
    GuestInv g db.sessions (sendMessage none now db sock ⟨m, none, some g⟩).db := by
  have hnone : findSession db (IdQuery.byGuest g) = none :=
    List.find?_eq_none.mpr (fun t ht => by simp [matchesQuery, hfree t ht])
  have hgE : g.isEmpty = false := by simp [List.isEmpty_iff, hg]
  simp only [sendMessage, buildQuery_guest g hg, hnone, reduceCtorEq, if_false,
    continueSend, saveSession, insertMessage, insertSession, truthy, hgE,
    Bool.not_false, Bool.not_true, if_true, if_false]
  refine ⟨{ _id := db.nextId, userId := none, guestDetails := sock.guestDetails.getD {}, guestId := some g, socketId := sock.id, isActive := true, lastActivity := now, ipAddress := some sock.ip, userAgent := sock.userAgent }, ?_, rfl, ?_⟩
  · rw [List.map_append, map_skip (fun t htm => Nat.ne_of_lt (hwf t htm))]
    simp
  · intro t htm
    exact ⟨hfree t htm, Nat.ne_of_lt (hwf t htm)⟩

/-- Any sequence of `send_message` events carrying the invariant guest
id keeps the invariant. -/
theorem sends_keep_inv (g : Str) (hg : g ≠ []) :
    ∀ (ms : List Str) (pre : List ChatSession) (db : DB) (sock : Sock) (now : Nat),
      GuestInv g pre db → GuestInv g pre (sendGuestMsgs now g db sock ms).1 := by
  intro ms
  induction ms with
  | nil => intro pre db sock now hinv; exact hinv
  | cons m rest ih =>
    intro pre db sock now hinv
    exact ih pre _ _ _ (send_preserves_inv g hg pre db sock now m hinv)

/-- `join_session` never inserts a session row (in either branch the
session count is unchanged). -/
theorem joinSession_row_count (db : DB) (sock0 : Sock) (d : JoinData) :
    ((joinSession none db sock0 d).db).sessions.length = db.sessions.length := by
  have hid : ({ sock0 with guestId := d.guestId, userId := d.userId, guestDetails := d.guestDetails } : Sock).id = sock0.id := rfl
  cases hfs : findSession db (buildQuery d.userId d.guestId sock0.id) with
  | some s =>
    simp [joinSession, hid, hfs, saveSession]
  | none =>
    simp only [joinSession, hid, hfs, reduceCtorEq, if_false]

/-- A guest-only `join_session` that finds no session leaves the store
untouched. -/
theorem join_no_guest_row (g : Str) (hg : g ≠ []) (db : DB) (sock0 : Sock)
    (gd : Option GuestDetails)
    (hfree : ∀ t ∈ db.sessions, t.guestId ≠ some g) :
    (joinSession none db sock0 ⟨none, gd, some g⟩).db = db := by
  have hid : ({ sock0 with guestId := some g, userId := none, guestDetails := gd } : Sock).id = sock0.id := rfl
  have hnone : findSession db (IdQuery.byGuest g) = none :=
    List.find?_eq_none.mpr (fun t ht => by simp [matchesQuery, hfree t ht])
  simp only [joinSession, hid, buildQuery_guest g hg, hnone, reduceCtorEq, if_false]

/-- C2: starting from a store with no session row for guest `g`
(well-formed ids), a `join_session` followed by any number of
`send_message` events all carrying `g` leaves exactly one session row
with that guest id: `join_session` never creates a row (its session
count is always preserved, and here the store is untouched, count 0),
the first `send_message` creates exactly one row, and every later
`send_message` reuses it. -/
theorem c2_single_session_row (g : Str) (hg : g ≠ []) (db : DB) (sock : Sock)
    (gd : Option GuestDetails) (now : Nat) (m : Str) (ms : List Str)
    (hfree : ∀ t ∈ db.sessions, t.guestId ≠ some g)
    (hwf : ∀ t ∈ db.sessions, t._id < db.nextId) :
    (∀ (db' : DB) (sock' : Sock) (d : JoinData),
      ((joinSession none db' sock' d).db).sessions.length = db'.sessions.length)
    ∧ countGuest (joinSession none db sock ⟨none, gd, some g⟩).db g = 0
    ∧ countGuest (sendMessage none now (joinSession none db sock ⟨none, gd, some g⟩).db
        (joinSession none db sock ⟨none, gd, some g⟩).sock ⟨m, none, some g⟩).db g = 1
    ∧ countGuest (sendGuestMsgs (now + 1) g
        (sendMessage none now (joinSession none db sock ⟨none, gd, some g⟩).db
          (joinSession none db sock ⟨none, gd, some g⟩).sock ⟨m, none, some g⟩).db
        (sendMessage none now (joinSession none db sock ⟨none, gd, some g⟩).db
          (joinSession none db sock ⟨none, gd, some g⟩).sock ⟨m, none, some g⟩).sock
        ms).1 g = 1 := by
  have hjdb := join_no_guest_row g hg db sock gd hfree
  refine ⟨fun db' sock' d => joinSession_row_count db' sock' d, ?_, ?_, ?_⟩
  · rw [hjdb, countGuest]
    exact List.countP_eq_zero.mpr (fun t ht => by simp [hfree t ht])
  · rw [hjdb]
    exact countGuest_of_inv (first_send_creates g hg db _ now m hfree hwf)
  · rw [hjdb]
    exact countGuest_of_inv (sends_keep_inv g hg ms db.sessions _ _ (now + 1)
      (first_send_creates g hg db _ now m hfree hwf))

/-- Witness for C2: from an empty store, guest "g1" joins and sends
three messages; exactly one session row with guest id "g1" remains. -/
theorem c2_witness :
    ("g1".data ≠ [] ∧ (∀ t ∈ (({} : DB)).sessions, t.guestId ≠ some "g1".data)
      ∧ (∀ t ∈ (({} : DB)).sessions, t._id < ({} : DB).nextId))
    ∧ countGuest (sendGuestMsgs 1 "g1".data
        (sendMessage none 0 (joinSession none {} ({ id := "s1".data } : Sock)
            ⟨none, none, some "g1".data⟩).db
          (joinSession none {} ({ id := "s1".data } : Sock)
            ⟨none, none, some "g1".data⟩).sock
          ⟨"hello".data, none, some "g1".data⟩).db
        (sendMessage none 0 (joinSession none {} ({ id := "s1".data } : Sock)
            ⟨none, none, some "g1".data⟩).db
          (joinSession none {} ({ id := "s1".data } : Sock)
            ⟨none, none, some "g1".data⟩).sock
          ⟨"hello".data, none, some "g1".data⟩).sock
        ["again".data, "more".data]).1 "g1".data = 1 :=
  ⟨⟨by decide, by simp, by simp⟩,
    (c2_single_session_row "g1".data (by decide) {} ({ id := "s1".data } : Sock)
      none 0 "hello".data ["again".data, "more".data]
      (by simp) (by simp)).2.2.2⟩

/-! ## Failure semantics (C9) -/

/-- A store holding one session for guest "g2". -/
def c9db : DB :=
  { sessions := [{ _id := 0, guestId := some "g2".data, socketId := "s0".data,
                   lastActivity := 1 }],
    nextId := 1 }

/-- C9 counterexample: in `send_message`, the user-message echo and
the admin broadcast are emitted before the `BotIntent.find` store
call; when that call fails (operation index 3), the handler catches
and logs, yet events — including one to the initiating connection —
were emitted in the failed operation, refuting "no event of any kind
is emitted". -/
theorem c9_counterexample :
    (sendMessage (some 3) 5 c9db ({ id := "s2".data } : Sock)
      ⟨"hello".data, none, some "g2".data⟩).logged = true
    ∧ (sendMessage (some 3) 5 c9db ({ id := "s2".data } : Sock)
        ⟨"hello".data, none, some "g2".data⟩).events ≠ []
    ∧ ∃ e ∈ (sendMessage (some 3) 5 c9db ({ id := "s2".data } : Sock)
        ⟨"hello".data, none, some "g2".data⟩).events, e.target = Target.toSelf := by
  decide

/-- A failing store operation inside the `join_session` handler is
caught, and nothing at all has been emitted or scheduled. -/
theorem joinSession_fail_silent (k : Nat) (db : DB) (sock0 : Sock) (d : JoinData)
    (h : (joinSession (some k) db sock0 d).logged = true) :
    (joinSession (some k) db sock0 d).events = []
    ∧ (joinSession (some k) db sock0 d).delayed = [] := by
  have hid : ({ sock0 with guestId := d.guestId, userId := d.userId, guestDetails := d.guestDetails } : Sock).id = sock0.id := rfl
  cases hfs : findSession db (buildQuery d.userId d.guestId sock0.id) with
  | some s =>
    simp only [joinSession, hid, hfs] at h ⊢
    split_ifs at h ⊢
    all_goals simp_all [caught]
  | none =>
    simp only [joinSession, hid, hfs] at h ⊢
    split_ifs at h ⊢
    all_goals simp_all [caught]

/-- A failing store operation in the send tail is caught and logged;
nothing is scheduled, and the only events possibly already delivered
are the user-message echo and the admin notification (emitted before
the intent lookup). -/
theorem continueSend_fail_silent (k base now : Nat) (db : DB) (sock : Sock)
    (s : ChatSession) (text : Str)
    (h : (continueSend (some k) base now db sock s text).logged = true) :
    (continueSend (some k) base now db sock s text).delayed = []
    ∧ ((continueSend (some k) base now db sock s text).events = []
      ∨ ∃ um s1, (continueSend (some k) base now db sock s text).events
          = [⟨Target.toSelf, OutEvent.message um⟩,
             ⟨Target.broadcast, OutEvent.adminNewMessage s1._id um s1⟩]) := by
  simp only [continueSend] at h ⊢
  split_ifs at h ⊢
  · exact ⟨rfl, Or.inl rfl⟩
  · exact ⟨rfl, Or.inl rfl⟩
  · exact ⟨rfl, Or.inr ⟨mkUserMsg db.nextId s._id text now,
      { s with lastActivity := now, isActive := true }, rfl⟩⟩

/-- A failing store operation in `send_message` is caught and logged;
no bot reply is scheduled, and at most the pre-failure echo and admin
notification have been emitted. -/
theorem sendMessage_fail_silent (k now : Nat) (db : DB) (sock : Sock) (d : SendData)
    (h : (sendMessage (some k) now db sock d).logged = true) :
    (sendMessage (some k) now db sock d).delayed = []
    ∧ ((sendMessage (some k) now db sock d).events = []
      ∨ ∃ um s1, (sendMessage (some k) now db sock d).events
          = [⟨Target.toSelf, OutEvent.message um⟩,
             ⟨Target.broadcast, OutEvent.adminNewMessage s1._id um s1⟩]) := by
  simp only [sendMessage] at h ⊢
  by_cases hk : (some k : Option Nat) = some 0
  · simp only [if_pos hk] at h ⊢
    exact ⟨rfl, Or.inl rfl⟩
  · simp only [if_neg hk] at h ⊢
    cases hfs : findSession db (buildQuery d.userId d.guestId sock.id) with
    | some s =>
      simp only [hfs] at h ⊢
      exact continueSend_fail_silent k 1 now db sock s d.message h
    | none =>
      simp only [hfs] at h ⊢
      by_cases hk1 : (some k : Option Nat) = some 1
      · simp only [if_pos hk1] at h ⊢
        exact ⟨rfl, Or.inl rfl⟩
      · simp only [if_neg hk1] at h ⊢
        exact continueSend_fail_silent k 2 now _ _ _ d.message h

/-- A failing `end_chat` store operation is caught; nothing is
emitted. -/
theorem endChat_fail_silent (k : Nat) (db : DB) (sock : Sock) (d : EndData)
    (h : (endChat (some k) db sock d).logged = true) :
    (endChat (some k) db sock d).events = []
    ∧ (endChat (some k) db sock d).delayed = [] := by
  cases hg : d.guestId with
  | none => simp [endChat, hg] at h
  | some g =>
    by_cases hge : g.isEmpty
    · simp [endChat, hg, hge] at h
    · by_cases hk : (some k : Option Nat) = some 0
      · simp only [endChat, hg, hge, if_false, if_pos hk] at h ⊢
        exact ⟨rfl, rfl⟩
      · simp only [endChat, hg, hge, if_false, if_neg hk] at h ⊢
        cases hfs : findSession db (IdQuery.byGuest g) with
        | some s => rw [hfs] at h; simp at h
        | none => rw [hfs] at h; simp at h

/-- A failing `admin_reply` store operation is caught; nothing is
emitted. -/
theorem adminReply_fail_silent (k now : Nat) (db : DB) (sock : Sock) (d : AdminReplyData)
    (h : (adminReply (some k) now db sock d).logged = true) :
    (adminReply (some k) now db sock d).events = []
    ∧ (adminReply (some k) now db sock d).delayed = [] := by
  simp only [adminReply] at h ⊢
  split_ifs at h ⊢
  all_goals simp_all [caught]

/-- A failing `delete_message` store operation is caught; nothing is
emitted. -/
theorem deleteMessage_fail_silent (k : Nat) (db : DB) (sock : Sock) (d : DelMsgData)
    (h : (deleteMessage (some k) db sock d).logged = true) :
    (deleteMessage (some k) db sock d).events = []
    ∧ (deleteMessage (some k) db sock d).delayed = [] := by
  simp only [deleteMessage] at h ⊢
  by_cases hk : (some k : Option Nat) = some 0
  · simp only [if_pos hk] at h ⊢
    exact ⟨rfl, rfl⟩
  · simp only [if_neg hk] at h ⊢
    cases hf : db.messages.find? (fun m => m._id = d.messageId) with
    | some m => simp only [hf] at h; simp at h
    | none => simp only [hf] at h; simp at h

/-- A failing `delete_session` store operation is caught; nothing is
emitted. -/
theorem deleteSession_fail_silent (k : Nat) (db : DB) (sock : Sock) (sid : Str)
    (h : (deleteSession (some k) db sock sid).logged = true) :
    (deleteSession (some k) db sock sid).events = []
    ∧ (deleteSession (some k) db sock sid).delayed = [] := by
  simp only [deleteSession] at h ⊢
  by_cases hk : (some k : Option Nat) = some 0
  · simp only [if_pos hk] at h ⊢
    exact ⟨rfl, rfl⟩
  · simp only [if_neg hk] at h ⊢
    cases hf : db.sessions.find? (fun s => natToStr s._id = sid) with
    | some s => simp only [hf] at h; simp at h
    | none =>
      simp only [hf] at h ⊢
      by_cases hk1 : (some k : Option Nat) = some 1
      · simp only [if_pos hk1] at h ⊢
        exact ⟨rfl, rfl⟩
      · simp only [if_neg hk1] at h ⊢
        cases hfs : findSession db (IdQuery.bySocket sid) with
        | some s => simp only [hfs] at h; simp at h
        | none => simp only [hfs] at h; simp at h

/-- C9 amended: for every chat event handler, when a store operation
fails the error is caught and logged at the handler boundary and the
operation is abandoned: no further event is emitted after the failure
point, no bot reply is scheduled, and no error event exists in the
protocol to propagate the failure (`OutEvent` has no error
constructor).  For `join_session`, `end_chat`, `admin_reply`,
`delete_message` and `delete_session` a caught failure leaves no
emission at all; for `send_message`, events already emitted before the
failing operation — the user-message echo to the initiating connection
and the admin broadcast — stand and are not retracted. -/
theorem c9_failure_semantics :
    (∀ (k : Nat) (db : DB) (sock : Sock) (d : JoinData),
      (joinSession (some k) db sock d).logged = true →
      (joinSession (some k) db sock d).events = []
      ∧ (joinSession (some k) db sock d).delayed = [])
    ∧ (∀ (k now : Nat) (db : DB) (sock : Sock) (d : SendData),
      (sendMessage (some k) now db sock d).logged = true →
      (sendMessage (some k) now db sock d).delayed = []
      ∧ ((sendMessage (some k) now db sock d).events = []
        ∨ ∃ um s1, (sendMessage (some k) now db sock d).events
            = [⟨Target.toSelf, OutEvent.message um⟩,
               ⟨Target.broadcast, OutEvent.adminNewMessage s1._id um s1⟩]))
    ∧ (∀ (k : Nat) (db : DB) (sock : Sock) (d : EndData),
      (endChat (some k) db sock d).logged = true →
      (endChat (some k) db sock d).events = []
      ∧ (endChat (some k) db sock d).delayed = [])
    ∧ (∀ (k now : Nat) (db : DB) (sock : Sock) (d : AdminReplyData),
      (adminReply (some k) now db sock d).logged = true →
      (adminReply (some k) now db sock d).events = []
      ∧ (adminReply (some k) now db sock d).delayed = [])
    ∧ (∀ (k : Nat) (db : DB) (sock : Sock) (d : DelMsgData),
      (deleteMessage (some k) db sock d).logged = true →
      (deleteMessage (some k) db sock d).events = []
      ∧ (deleteMessage (some k) db sock d).delayed = [])
    ∧ (∀ (k : Nat) (db : DB) (sock : Sock) (sid : Str),
      (deleteSession (some k) db sock sid).logged = true →
      (deleteSession (some k) db sock sid).events = []
      ∧ (deleteSession (some k) db sock sid).delayed = []) :=
  ⟨joinSession_fail_silent, sendMessage_fail_silent, endChat_fail_silent,
    adminReply_fail_silent, deleteMessage_fail_silent, deleteSession_fail_silent⟩

/-- Witness for C9 amended: a failing `ChatSession.findOneAndUpdate`
in `end_chat` is logged and emits nothing. -/
theorem c9_witness :
    (endChat (some 0) c9db ({ id := "s2".data } : Sock) ⟨some "g2".data⟩).logged = true
    ∧ (endChat (some 0) c9db ({ id := "s2".data } : Sock) ⟨some "g2".data⟩).events = []
    ∧ (endChat (some 0) c9db ({ id := "s2".data } : Sock) ⟨some "g2".data⟩).delayed = [] :=
  ⟨by decide,
    (c9_failure_semantics.2.2.1 0 c9db ({ id := "s2".data } : Sock)
      ⟨some "g2".data⟩ (by decide)).1,
    (c9_failure_semantics.2.2.1 0 c9db ({ id := "s2".data } : Sock)
      ⟨some "g2".data⟩ (by decide)).2⟩
